import Mathlib

/-!
Verification of the issue-timing analysis pipeline.

This file gives a shallow embedding of the timing-metric extraction code
(completion_analysis.py, completion_time_analysis.py, feature_2.py,
triage_time_analysis.py, triage_time_analysis_hours.py) and proves or refutes
the specification claims about it.

Modelling conventions:
* A Python `datetime` is a wall-clock reading (seconds, `Int`) together with an
  optional UTC offset (seconds); `tz = none` is a timezone-naive value.
* Machine floats in the source only ever hold exact second counts divided by
  exact constants, so durations are modelled as `ℚ`.
* Calls into external libraries (dateutil's `parser.parse`, pandas'
  `pd.to_datetime`) are modelled by an explicit `parse` parameter
  `String → Option PyDateTime`; `none` is a parse failure (the caught
  exception, resp. `NaT` under `errors="coerce"`).
-/

/-- Model of a Python `datetime`: `wall` is the naive wall-clock reading in
seconds, `tz` the UTC offset in seconds (`none` = timezone-naive). -/
structure PyDateTime where
  wall : Int
  tz : Option Int
deriving DecidableEq, Repr

/-- The absolute instant denoted by a datetime (for an aware value,
wall-clock minus offset; Python compares and subtracts aware datetimes by this
instant). -/
def PyDateTime.inst (d : PyDateTime) : Int := d.wall - d.tz.getD 0

/-- A UTC-tagged datetime at instant `t`. -/
def utcDT (t : Int) : PyDateTime := ⟨t, some 0⟩

/-- `model.State` from the repository's data model. -/
inductive State where
  | open_
  | closed
deriving DecidableEq, Repr

/-- `model.Event`: type, timestamp, and the free-text fields the analyses
probe. -/
structure Event where
  event_type : Option String
  event_date : Option PyDateTime
  label : Option String
  comment : Option String
  author : Option String
deriving DecidableEq, Repr

/-- `model.Issue` with the fields the analyses read. -/
structure Issue where
  number : Int
  creator : String
  title : String
  url : Option String
  state : State
  created_date : Option PyDateTime
  updated_date : Option PyDateTime
  labels : List String
  assignees : List String
  events : List Event
deriving DecidableEq, Repr

/-- Input to `_to_utc_dt`: Python `None`, a native `datetime`, or a value that
will be rendered through `str` and parsed. -/
inductive Raw where
  | null
  | dt (d : PyDateTime)
  | str (s : String)
deriving DecidableEq, Repr

/-- The `datetime` branch of `_to_utc_dt` (completion_time_analysis.py line 26,
feature_2.py line 31): `x if x.tzinfo else x.replace(tzinfo=timezone.utc)`.
A naive datetime gets UTC attached; an aware one is returned unchanged. -/
def dtBranch (d : PyDateTime) : PyDateTime :=
  if d.tz.isSome then d else ⟨d.wall, some 0⟩

/-- What `pd.to_datetime(…, utc=True)` does to a successfully parsed value:
a naive reading is taken as UTC, an aware one is converted to UTC. -/
def forceUtc (d : PyDateTime) : PyDateTime :=
  if d.tz.isSome then ⟨d.inst, some 0⟩ else ⟨d.wall, some 0⟩

/-- `_to_utc_dt` from completion_time_analysis.py lines 22-30 (identical in
feature_2.py lines 27-35). `parse` abstracts the underlying pandas datetime
parser; `parse s = none` models `errors="coerce"` producing `NaT`. -/
def to_utc_dt (parse : String → Option PyDateTime) : Raw → Option PyDateTime
  | .null => none
  | .dt d => some (dtBranch d)
  | .str s => (parse s).map forceUtc

/-- `pd.to_datetime(s, utc=True, errors="coerce")` as used on the `since`
filter parameter. -/
def pd_to_datetime_utc (parse : String → Option PyDateTime) (s : String) :
    Option PyDateTime :=
  (parse s).map forceUtc

/-- `_to_utc_timestamp` from completion_analysis.py lines 52-70. `parse`
abstracts `dateutil.parser.parse`; `parse s = none` models the caught
`ValueError`/`TypeError`. The empty string is the falsy input rejected by
`if not date_str`. A naive parse gets UTC attached (`replace`), an aware one
is converted (`astimezone`). -/
def to_utc_timestamp (parse : String → Option PyDateTime) (s : String) :
    Option PyDateTime :=
  if s = "" then none
  else
    match parse s with
    | none => none
    | some d => if d.tz.isSome then some ⟨d.inst, some 0⟩ else some ⟨d.wall, some 0⟩

/-- `_created_at` from completion_time_analysis.py lines 32-34:
`_to_utc_dt(issue.created_date) if issue.created_date else None`; the stored
value is a native datetime, so only the datetime branch is exercised. -/
def created_at (i : Issue) : Option PyDateTime := i.created_date.map dtBranch

/-- `_updated_at` from completion_time_analysis.py lines 36-38. -/
def updated_at (i : Issue) : Option PyDateTime := i.updated_date.map dtBranch

/-- The bucket predicates of completion_analysis.py lines 183-186 (and the
identical age buckets at lines 256-259): `d <= 7`, `7 < d <= 30`,
`30 < d <= 90`, `90 < d`. -/
def inFast (d : ℚ) : Bool := decide (d ≤ 7)

/-- Bucket `7 < d ≤ 30`. -/
def inNormal (d : ℚ) : Bool := decide (7 < d) && decide (d ≤ 30)

/-- Bucket `30 < d ≤ 90`. -/
def inSlow (d : ℚ) : Bool := decide (30 < d) && decide (d ≤ 90)

/-- Bucket `90 < d`. -/
def inStale (d : ℚ) : Bool := decide (90 < d)

/-- The four bucket counts (fast, normal, slow, stale) of
completion_analysis.py lines 183-187 / 256-260. -/
def bucketCounts (values : List ℚ) : Nat × Nat × Nat × Nat :=
  (values.countP inFast, values.countP inNormal, values.countP inSlow,
    values.countP inStale)

/-- Python `str.lower` on one character (ASCII; the strings compared against
are ASCII). -/
def lowerChar (c : Char) : Char :=
  if 65 ≤ c.toNat ∧ c.toNat ≤ 90 then Char.ofNat (c.toNat + 32) else c

/-- Python `str.lower`. -/
def pyLower (s : String) : String := String.mk (s.data.map lowerChar)

/-- Whitespace for Python `str.strip`. -/
def isSpaceChar (c : Char) : Bool := c == ' ' || c == '\t' || c == '\n' || c == '\r'

/-- Drop leading whitespace characters. -/
def dropLeadingSpace : List Char → List Char
  | [] => []
  | c :: cs => if isSpaceChar c then dropLeadingSpace cs else c :: cs

/-- Python `str.strip`. -/
def pyStrip (s : String) : String :=
  String.mk ((dropLeadingSpace (dropLeadingSpace s.data).reverse).reverse)

/-- Does `cs` start with `p`? -/
def listHasPrefix : List Char → List Char → Bool
  | [], _ => true
  | _ :: _, [] => false
  | p :: ps, c :: cs => p == c && listHasPrefix ps cs

/-- Does `cs` contain `pat` as a contiguous run? -/
def listHasSub (pat : List Char) : List Char → Bool
  | [] => listHasPrefix pat []
  | c :: cs => listHasPrefix pat (c :: cs) || listHasSub pat cs

/-- `_get_closed_date` from completion_analysis.py lines 72-83: return the
normalized timestamp of the FIRST event whose `event_type` equals the string
"closed" exactly (Python `==`, case-sensitive) and that carries a date;
otherwise fall back to the updated date when the issue is closed. `norm`
abstracts `self._to_utc_timestamp(str(·))`, the render/reparse round trip of a
stored datetime through dateutil. -/
def get_closed_date (norm : PyDateTime → Option PyDateTime) (i : Issue) :
    Option PyDateTime :=
  match i.events.find? (fun e =>
      decide (e.event_type = some "closed") && e.event_date.isSome) with
  | some e =>
    match e.event_date with
    | some d => norm d
    | none => none
  | none =>
    match i.state, i.updated_date with
    | State.closed, some u => norm u
    | _, _ => none

/-- The candidate closed timestamps collected by `_closed_at_from_events`
(completion_time_analysis.py lines 40-48): events with a truthy `event_type`
whose lower-casing is "closed" and that carry a date, pushed through the
datetime branch of `_to_utc_dt` (the truthiness guard is subsumed by the
equality test, since `"".toLower ≠ "closed"`). -/
def closedCands (i : Issue) : List PyDateTime :=
  i.events.filterMap (fun e =>
    match e.event_type, e.event_date with
    | some t, some d => if pyLower t = "closed" then some (dtBranch d) else none
    | _, _ => none)

/-- Python `max` over a list of (aware) datetimes: compares by instant and
keeps the first maximal element. -/
def pyMax : List PyDateTime → Option PyDateTime
  | [] => none
  | x :: xs => some (xs.foldl (fun acc d => if acc.inst < d.inst then d else acc) x)

/-- `_closed_at_from_events` from completion_time_analysis.py lines 40-48. -/
def closed_at_from_events (i : Issue) : Option PyDateTime := pyMax (closedCands i)

/-- `_closed_at` from completion_time_analysis.py lines 50-58: latest closed
event if any, else `_updated_at` when the issue is closed, else null. -/
def closed_at (i : Issue) : Option PyDateTime :=
  match closed_at_from_events i with
  | some ts => some ts
  | none => if i.state = State.closed then updated_at i else none

/-- `_completion_days` from completion_time_analysis.py lines 94-102 (identical
in feature_2.py lines 132-140): `d if d >= 0 else None`. -/
def completion_days (i : Issue) : Option ℚ :=
  if i.state = State.closed then
    match created_at i, closed_at i with
    | some c0, some c1 =>
      let d : ℚ := ((c1.inst - c0.inst : Int) : ℚ) / 86400
      if 0 ≤ d then some d else none
    | _, _ => none
  else none

/-- `_calculate_completion_time` from completion_analysis.py lines 85-98; note
the absence of any negativity check on the resulting duration. `norm`
abstracts `_to_utc_timestamp(str(·))` as in `get_closed_date`. -/
def calculate_completion_time (norm : PyDateTime → Option PyDateTime)
    (i : Issue) : Option ℚ :=
  if i.state = State.closed then
    match i.created_date.bind norm, get_closed_date norm i with
    | some c0, some c1 => some (((c1.inst - c0.inst : Int) : ℚ) / 86400)
    | _, _ => none
  else none

/-- The duration records collected by completion_analysis.py
`_analyze_closed_issues` lines 154-166 (issue number paired with its
completion time; the display-only fields are dropped). -/
def completionRecordsCA (norm : PyDateTime → Option PyDateTime)
    (closedIssues : List Issue) : List (Int × ℚ) :=
  closedIssues.filterMap (fun i =>
    (calculate_completion_time norm i).map (fun d => (i.number, d)))

/-- The duration records collected by completion_time_analysis.py
`_analyze_closed_issues` lines 127-138. -/
def completionRecordsCTA (closedIssues : List Issue) : List (Int × ℚ) :=
  closedIssues.filterMap (fun i =>
    (completion_days i).map (fun d => (i.number, d)))

/-- The assignment-indicating event kinds of triage_time_analysis.py line 29. -/
def assignmentKinds : List String :=
  ["assigned", "assign", "assignment", "status_change", "state_change"]

/-- Python `"assign" in s.lower()`. -/
def hasAssign (s : String) : Bool := listHasSub "assign".data (pyLower s).data

/-- The qualifying test of the loop body of `_first_assignment_event`
(triage_time_analysis.py lines 25-34, identical in
triage_time_analysis_hours.py lines 39-49): events whose `event_type` is falsy
(absent or empty) are skipped by the `continue` BEFORE either the kind test or
the label/comment "assign" heuristic runs. -/
def qualifiesCode (e : Event) : Bool :=
  match e.event_type with
  | none => false
  | some t =>
    if t = "" then false
    else
      decide (pyLower (pyStrip t) ∈ assignmentKinds)
      || (match e.label with | some s => decide (s ≠ "") && hasAssign s | none => false)
      || (match e.comment with | some s => decide (s ≠ "") && hasAssign s | none => false)

/-- The sort key of `sorted(issue.events, key=lambda ev: ev.event_date or
created)`: the event's instant, with the issue's created instant substituted
for events without a date. -/
def eventSortKey (created : PyDateTime) (e : Event) : Int :=
  (e.event_date.getD created).inst

/-- Python's stable sort of the events by that key (`List.insertionSort` with
`orderedInsert` keeps ties in original order, exactly like `sorted`). -/
def sortedEventsBy (created : PyDateTime) (events : List Event) : List Event :=
  events.insertionSort (fun a b => eventSortKey created a ≤ eventSortKey created b)

/-- `_first_assignment_event` from triage_time_analysis.py lines 20-35. -/
def first_assignment_event (i : Issue) : Option Event :=
  match i.created_date with
  | none => none
  | some created => (sortedEventsBy created i.events).find? qualifiesCode

/-- Modelled from the claim's words, for the refinement comparison of C3: an
event qualifies when its trimmed lower-cased type is an assignment kind OR its
label or comment text contains "assign" — with no gate requiring a non-empty
`event_type` before the heuristic. -/
def qualifiesSpec (e : Event) : Bool :=
  (match e.event_type with
   | some t => decide (pyLower (pyStrip t) ∈ assignmentKinds)
   | none => false)
  || (match e.label with | some s => hasAssign s | none => false)
  || (match e.comment with | some s => hasAssign s | none => false)

/-- The first-assignment resolution as the claim words it (differs from
`first_assignment_event` only in the qualifying test). -/
def first_assignment_event_spec (i : Issue) : Option Event :=
  match i.created_date with
  | none => none
  | some created => (sortedEventsBy created i.events).find? qualifiesSpec

/-- One loop iteration of `triage_time_analysis` (triage_time_analysis.py
lines 45-59): an issue contributes a (number, triage_days) row only when its
created date is present, a first assignment event was found, and THAT event's
own `event_date` is present. -/
def triageRow (i : Issue) : Option (Int × ℚ) :=
  match i.created_date with
  | none => none
  | some created =>
    match first_assignment_event i with
    | some e =>
      match e.event_date with
      | some d => some (i.number, ((d.inst - created.inst : Int) : ℚ) / 86400)
      | none => none
    | none => none

/-- The rows of `triage_time_analysis` over the issue collection. -/
def triageRows (issues : List Issue) : List (Int × ℚ) :=
  issues.filterMap triageRow

/-- One loop iteration of the hours variant (triage_time_analysis_hours.py
lines 31-59, whose inlined scan is the same computation as
`_first_assignment_event`): `triage_hours` instead of days. -/
def triageRowHours (i : Issue) : Option (Int × ℚ) :=
  match i.created_date with
  | none => none
  | some created =>
    match first_assignment_event i with
    | some e =>
      match e.event_date with
      | some d => some (i.number, ((d.inst - created.inst : Int) : ℚ) / 3600)
      | none => none
    | none => none

/-- The rows of the hours variant over the issue collection. -/
def triageRowsHours (issues : List Issue) : List (Int × ℚ) :=
  issues.filterMap triageRowHours

/-- `_labels` from completion_time_analysis.py lines 60-62 (and
`_get_issue_labels`, completion_analysis.py lines 114-116): an issue without
labels is given the sentinel label "unlabeled". -/
def labelsOf (i : Issue) : List String :=
  if i.labels = [] then ["unlabeled"] else i.labels

/-- The user pass of `_filter_issues` (completion_time_analysis.py lines
84-85): `if self.user_filter: items = [i for i in items if i.creator == u]`.
An absent or empty (falsy) parameter leaves the pass inactive. -/
def userPass (userF : Option String) (l : List Issue) : List Issue :=
  match userF with
  | some u => if u = "" then l else l.filter (fun i => i.creator == u)
  | none => l

/-- The label pass (lines 86-87): membership in `_labels(i)`, i.e. with the
"unlabeled" sentinel for label-less issues. -/
def labelPass (labelF : Option String) (l : List Issue) : List Issue :=
  match labelF with
  | some lb => if lb = "" then l
               else l.filter (fun i => decide (lb ∈ labelsOf i))
  | none => l

/-- The since pass (lines 88-91): keep issues whose resolvable created instant
is ≥ the parsed bound; an unparseable bound (NaT) leaves the pass inactive. -/
def sincePass (parse : String → Option PyDateTime) (sinceF : Option String)
    (l : List Issue) : List Issue :=
  match sinceF with
  | some s =>
    if s = "" then l
    else
      match pd_to_datetime_utc parse s with
      | some start =>
        l.filter (fun i =>
          match created_at i with
          | some c => decide (start.inst ≤ c.inst)
          | none => false)
      | none => l
  | none => l

/-- `_filter_issues` from completion_time_analysis.py lines 82-92 (feature_2.py
lines 115-130 is the same computation): the three successive narrowing
passes. -/
def filter_issues (parse : String → Option PyDateTime)
    (userF labelF sinceF : Option String) (issues : List Issue) : List Issue :=
  sincePass parse sinceF (labelPass labelF (userPass userF issues))

/-- Modelled from the claim's words, for the refinement comparison of C7: the
label pass matches membership in the issue's own labels (no "unlabeled"
sentinel for label-less issues). -/
def labelPassSpec (labelF : Option String) (l : List Issue) : List Issue :=
  match labelF with
  | some lb => if lb = "" then l
               else l.filter (fun i => decide (lb ∈ i.labels))
  | none => l

/-- The filtering as the claim words it (differs from `filter_issues` only in
the label pass). -/
def filter_issues_spec (parse : String → Option PyDateTime)
    (userF labelF sinceF : Option String) (issues : List Issue) : List Issue :=
  sincePass parse sinceF (labelPassSpec labelF (userPass userF issues))

/-- The creator predicate applied by the (active) user pass. -/
def userPred (userF : Option String) (i : Issue) : Bool :=
  match userF with
  | some u => u == "" || i.creator == u
  | none => true

/-- The label predicate applied by the (active) label pass. -/
def labelPred (labelF : Option String) (i : Issue) : Bool :=
  match labelF with
  | some lb => lb == "" || decide (lb ∈ labelsOf i)
  | none => true

/-- The created-instant predicate applied by the (active) since pass; an
unparseable bound makes the pass vacuous. -/
def sincePred (parse : String → Option PyDateTime) (sinceF : Option String)
    (i : Issue) : Bool :=
  match sinceF with
  | some s =>
    if s = "" then true
    else
      match pd_to_datetime_utc parse s with
      | some start =>
        match created_at i with
        | some c => decide (start.inst ≤ c.inst)
        | none => false
      | none => true
  | none => true

/-- numpy/pandas rounding of a rational: round half to even. -/
def rne (q : ℚ) : Int :=
  let f := ⌊q⌋
  let r := q - (f : ℚ)
  if r < 1 / 2 then f
  else if 1 / 2 < r then f + 1
  else if f % 2 = 0 then f else f + 1

/-- `.round(1)`: one decimal place, half to even. -/
def round1 (q : ℚ) : ℚ := (rne (10 * q) : ℚ) / 10

/-- The pandas median of a series: sort, middle element when the length is odd,
mean of the two middle elements when even. (The analyses only apply it to
non-empty groups; the value at `[]` is irrelevant.) -/
def medianOf (l : List ℚ) : ℚ :=
  let s := l.insertionSort (· ≤ ·)
  let n := l.length
  if n % 2 = 1 then s.getD (n / 2) 0
  else (s.getD (n / 2 - 1) 0 + s.getD (n / 2) 0) / 2

/-- The pandas `quantile(0.9)` of a series (linear interpolation): position
`h = (n-1)*0.9`, interpolate between the floor and ceiling neighbours. -/
def p90Of (l : List ℚ) : ℚ :=
  let s := l.insertionSort (· ≤ ·)
  let h : ℚ := ((l.length - 1 : ℕ) : ℚ) * 9 / 10
  s.getD (⌊h⌋).toNat 0 + (h - (⌊h⌋ : ℚ)) * (s.getD (⌈h⌉).toNat 0 - s.getD (⌊h⌋).toNat 0)

/-- One row of the per-label statistics tables of completion_analysis.py
(label, rounded median, count). -/
structure LabelStat where
  label : String
  median : ℚ
  count : Nat
deriving DecidableEq, Repr

/-- The group keys of a label → value table, in order of first occurrence.
(pandas lists group keys sorted; the subsequent `sort_values` by median with
an unstable quicksort discards that order, so any enumeration order is a
faithful refinement for the properties proved here.) -/
def groupKeys (rows : List (String × ℚ)) : List String :=
  rows.foldl (fun acc r => if r.1 ∈ acc then acc else acc ++ [r.1]) []

/-- `groupby('label')[value].agg(['median','count']).round(1)` over the
flattened (label, value) rows. -/
def groupStats (rows : List (String × ℚ)) : List LabelStat :=
  (groupKeys rows).map (fun k =>
    let vs := (rows.filter (fun r => r.1 == k)).map (fun r => r.2)
    { label := k, median := round1 (medianOf vs), count := vs.length })

/-- `_analyze_by_labels` (completion_analysis.py lines 299-312): keep groups
with `count >= 3`, sort ascending by median, take the top 10. -/
def analyze_by_labels (rows : List (String × ℚ)) : List LabelStat :=
  (((groupStats rows).filter (fun st => decide (3 ≤ st.count))).insertionSort
    (fun a b => a.median ≤ b.median)).take 10

/-- `_analyze_stalest_labels` (completion_analysis.py lines 379-393): keep
groups with `count >= 2`, sort descending by median, take the top 10. -/
def analyze_stalest_labels (rows : List (String × ℚ)) : List LabelStat :=
  (((groupStats rows).filter (fun st => decide (2 ≤ st.count))).insertionSort
    (fun a b => b.median ≤ a.median)).take 10

/-- The aging records of `_analyze_open_issues` (completion_analysis.py lines
229-240, feature_2.py lines 268-277). The `datetime.now(timezone.utc)` call
sits INSIDE the per-issue age computation (`_calculate_open_age` line 110,
`_open_age_days` line 148), after the state and created-date checks, so the
clock is sampled anew for each surviving record: `clock k` is the instant the
k-th sampling returns. `norm` abstracts `_to_utc_timestamp(str(·))` for
completion_analysis.py; feature_2.py is the instance `norm = some ∘ dtBranch`. -/
def agingRecords (norm : PyDateTime → Option PyDateTime) (clock : Nat → Int) :
    List Issue → Nat → List (Int × ℚ)
  | [], _ => []
  | i :: rest, k =>
    if i.state = State.open_ then
      match i.created_date with
      | some cd =>
        match norm cd with
        | some c => (i.number, ((clock k - c.inst : Int) : ℚ) / 86400)
            :: agingRecords norm clock rest (k + 1)
        | none => agingRecords norm clock rest k
      | none => agingRecords norm clock rest k
    else agingRecords norm clock rest k

/-- The summary statistics block computed over a non-empty value series
(count/mean/median/p90); `none` is the emptiness short-circuit. -/
structure Summary where
  count : Nat
  mean : ℚ
  median : ℚ
  p90 : ℚ
deriving DecidableEq, Repr

/-- Summary over a series, `none` when empty (the code guards emptiness before
computing any statistic). -/
def summaryOf (vals : List ℚ) : Option Summary :=
  if vals = [] then none
  else some { count := vals.length, mean := vals.sum / vals.length,
              median := medianOf vals, p90 := p90Of vals }

/-- The shape of `CompletionAnalysis.run`'s result dict: completion-time mode,
aging mode, or the empty `{}` sentinel. -/
inductive RunOutcome where
  | closedMode (recs : List (Int × ℚ)) (s : Summary) (buckets : Nat × Nat × Nat × Nat)
  | agingMode (recs : List (Int × ℚ)) (s : Summary) (buckets : Nat × Nat × Nat × Nat)
  | noData
deriving DecidableEq, Repr

/-- An analysis result together with the human-readable notices printed along
the way. -/
structure RunResult where
  outcome : RunOutcome
  messages : List String
deriving DecidableEq, Repr

/-- `_analyze_open_issues` of completion_analysis.py lines 223-290: collect
aging records; empty data yields the `{}` sentinel plus the no-data notice. -/
def analyze_open_issues (norm : PyDateTime → Option PyDateTime)
    (clock : Nat → Int) (openIssues : List Issue) : RunResult :=
  let recs := agingRecords norm clock openIssues 0
  match summaryOf (recs.map Prod.snd) with
  | none => ⟨.noData, ["No valid aging data found for open issues."]⟩
  | some s => ⟨.agingMode recs s (bucketCounts (recs.map Prod.snd)), []⟩

/-- `CompletionAnalysis.run` of completion_analysis.py lines 118-146 together
with the branch of `_analyze_closed_issues` lines 148-221 that decides the
mode: closed issues with usable durations → completion-time mode; otherwise
fall back to aging analysis over the open issues; zero usable records in the
selected mode → the `{}` sentinel and a no-data message. -/
def runCA (norm : PyDateTime → Option PyDateTime) (clock : Nat → Int)
    (filteredIssues : List Issue) : RunResult :=
  let closed := filteredIssues.filter (fun i => i.state == State.closed)
  let opens := filteredIssues.filter (fun i => i.state == State.open_)
  if closed.isEmpty then
    let r := analyze_open_issues norm clock opens
    ⟨r.outcome, "No closed issues found. Analyzing open issue aging instead..."
        :: r.messages⟩
  else
    let recs := completionRecordsCA norm closed
    match summaryOf (recs.map Prod.snd) with
    | none =>
      let r := analyze_open_issues norm clock opens
      ⟨r.outcome, "No valid completion times found for closed issues."
          :: r.messages⟩
    | some s => ⟨.closedMode recs s (bucketCounts (recs.map Prod.snd)), []⟩

/-! ### Concrete fixtures used by counterexamples and witnesses -/

/-- An event carrying only a type and a UTC timestamp. -/
def mkEv (ty : String) (t : Int) : Event :=
  { event_type := some ty, event_date := some (utcDT t), label := none,
    comment := none, author := none }

/-- A closed issue created at instant 0 that was closed at `t1`, reopened at
`t2` and closed again at `t3`. -/
def issueTripleClose (t1 t2 t3 : Int) : Issue :=
  { number := 1, creator := "alice", title := "", url := none,
    state := State.closed, created_date := some (utcDT 0),
    updated_date := some (utcDT t3), labels := [], assignees := [],
    events := [mkEv "closed" t1, mkEv "reopened" t2, mkEv "closed" t3] }

/-- A closed issue whose single closed event precedes its created date by one
day (clock skew / bad data). -/
def issueNeg : Issue :=
  { number := 7, creator := "bob", title := "", url := none,
    state := State.closed, created_date := some (utcDT 86400),
    updated_date := none, labels := [], assignees := [],
    events := [mkEv "closed" 0] }

/-- A well-formed closed issue: created at 0, closed two days later. -/
def issueGood : Issue :=
  { number := 9, creator := "bob", title := "", url := none,
    state := State.closed, created_date := some (utcDT 0),
    updated_date := none, labels := [], assignees := [],
    events := [mkEv "closed" 172800] }

/-- An event with no `event_type` whose comment contains "assign". -/
def evNullType : Event :=
  { event_type := none, event_date := some (utcDT 100), label := none,
    comment := some "please assign me", author := none }

/-- A plain assigned event at instant 200. -/
def evAssigned200 : Event := mkEv "assigned" 200

/-- An issue whose earliest assignment signal is the type-less comment event,
followed by a typed assigned event. -/
def issueHeur : Issue :=
  { number := 3, creator := "carol", title := "", url := none,
    state := State.open_, created_date := some (utcDT 0), updated_date := none,
    labels := [], assignees := [], events := [evNullType, evAssigned200] }

/-- An open issue with number `n`, created at instant 0, no events. -/
def issueOpenN (n : Int) : Issue :=
  { number := n, creator := "dan", title := "", url := none,
    state := State.open_, created_date := some (utcDT 0), updated_date := none,
    labels := [], assignees := [], events := [] }

/-- An issue with no labels at all. -/
def issueNoLabels : Issue :=
  { number := 4, creator := "erin", title := "", url := none,
    state := State.open_, created_date := some (utcDT 0), updated_date := none,
    labels := [], assignees := [], events := [] }

/-- An assigned event carrying no timestamp. -/
def evAssignNoDate : Event :=
  { event_type := some "assigned", event_date := none, label := none,
    comment := none, author := none }

/-- An issue whose first assignment-indicating event has no timestamp while a
later one does. -/
def issueNullFirstAssign : Issue :=
  { number := 5, creator := "fay", title := "", url := none,
    state := State.open_, created_date := some (utcDT 0), updated_date := none,
    labels := [], assignees := [],
    events := [evAssignNoDate, mkEv "assigned" 500] }

/-- An open issue with no created date. -/
def issueOpenNoCreated : Issue :=
  { number := 6, creator := "gus", title := "", url := none,
    state := State.open_, created_date := none, updated_date := none,
    labels := [], assignees := [], events := [] }

/-! ### Helper lemmas -/

/-- The foldl inside `pyMax` returns an element of the inputs that is
instant-maximal. -/
theorem pyMax_foldl_spec (xs : List PyDateTime) : ∀ x : PyDateTime,
    (xs.foldl (fun acc d => if acc.inst < d.inst then d else acc) x) ∈ x :: xs
    ∧ x.inst ≤ (xs.foldl (fun acc d => if acc.inst < d.inst then d else acc) x).inst
    ∧ ∀ c ∈ xs, c.inst ≤ (xs.foldl (fun acc d => if acc.inst < d.inst then d else acc) x).inst := by
  induction xs with
  | nil =>
    intro x
    exact ⟨List.mem_singleton.mpr rfl, le_refl _, by simp⟩
  | cons y ys ih =>
    intro x
    simp only [List.foldl_cons]
    by_cases h : x.inst < y.inst
    · rw [if_pos h]
      obtain ⟨hmem, hle, hall⟩ := ih y
      refine ⟨?_, le_of_lt (lt_of_lt_of_le h hle), ?_⟩
      · rcases List.mem_cons.mp hmem with h1 | h1
        · rw [h1]; exact List.mem_cons.mpr (Or.inr (List.mem_cons_self y ys))
        · exact List.mem_cons.mpr (Or.inr (List.mem_cons.mpr (Or.inr h1)))
      · intro c hc
        rcases List.mem_cons.mp hc with rfl | hc
        · exact hle
        · exact hall c hc
    · rw [if_neg h]
      obtain ⟨hmem, hle, hall⟩ := ih x
      refine ⟨?_, hle, ?_⟩
      · rcases List.mem_cons.mp hmem with h1 | h1
        · exact List.mem_cons.mpr (Or.inl h1)
        · exact List.mem_cons.mpr (Or.inr (List.mem_cons.mpr (Or.inr h1)))
      · intro c hc
        rcases List.mem_cons.mp hc with rfl | hc
        · exact le_trans (le_of_not_lt h) hle
        · exact hall c hc

/-- `pyMax` returns a member of the list whose instant dominates all others. -/
theorem pyMax_spec {l : List PyDateTime} {m : PyDateTime} (h : pyMax l = some m) :
    m ∈ l ∧ ∀ c ∈ l, c.inst ≤ m.inst := by
  cases l with
  | nil => cases h
  | cons x xs =>
    simp only [pyMax, Option.some.injEq] at h
    obtain ⟨hmem, hle, hall⟩ := pyMax_foldl_spec xs x
    rw [h] at hmem hle hall
    refine ⟨hmem, ?_⟩
    intro c hc
    rcases List.mem_cons.mp hc with rfl | hc
    · exact hle
    · exact hall c hc

/-! ### C1: close-instant resolution -/

/-- C1 counterexample. The claim says close-instant resolution returns the
LATEST timestamp among the "closed" events for EVERY issue; but
`_get_closed_date` of completion_analysis.py returns the timestamp of the
FIRST matching event: on an issue with events closed@10, reopened@20,
closed@30 it yields 10, not 30 as the claim requires. (`norm` is instantiated
with `some`, the value of the str/dateutil round trip on UTC datetimes.) -/
theorem c1_counterexample :
    get_closed_date some (issueTripleClose 10 20 30) = some (utcDT 10)
    ∧ utcDT 10 ≠ utcDT 30 := by
  refine ⟨by decide, by decide⟩

/-- C1 (amended): `_closed_at` of completion_time_analysis.py behaves exactly
as the claim states — it returns the latest (instant-maximal) normalized
timestamp among the events whose event_type lower-cases to "closed" and that
carry a date; when there is none it returns the normalized updated date if the
issue's state is closed and null otherwise, and on the closed/reopened/closed
scenario with t1 < t2 < t3 it resolves t3. `_get_closed_date` of
completion_analysis.py instead returns the normalized timestamp of the first
event whose event_type equals "closed" exactly (case-sensitively): on the same
scenario it resolves t1. -/
theorem c1_close_resolution_amended :
    (∀ (i : Issue) (m : PyDateTime), closed_at_from_events i = some m →
        closed_at i = some m ∧ m ∈ closedCands i ∧ ∀ c ∈ closedCands i, c.inst ≤ m.inst)
    ∧ (∀ i : Issue, closed_at_from_events i = none → i.state = State.closed →
        closed_at i = updated_at i)
    ∧ (∀ i : Issue, closed_at_from_events i = none → i.state ≠ State.closed →
        closed_at i = none)
    ∧ (∀ t1 t2 t3 : Int, t1 < t2 → t2 < t3 →
        closed_at (issueTripleClose t1 t2 t3) = some (utcDT t3))
    ∧ (∀ t1 t2 t3 : Int,
        get_closed_date some (issueTripleClose t1 t2 t3) = some (utcDT t1)) := by
  refine ⟨?_, ?_, ?_, ?_, ?_⟩
  · intro i m h
    refine ⟨by simp [closed_at, h], ?_⟩
    have h' : pyMax (closedCands i) = some m := h
    exact pyMax_spec h'
  · intro i h hs
    simp [closed_at, h, hs]
  · intro i h hs
    simp [closed_at, h, hs]
  · intro t1 t2 t3 h12 h23
    have h13 : t1 < t3 := h12.trans h23
    have hc : closedCands (issueTripleClose t1 t2 t3) = [utcDT t1, utcDT t3] := by
      simp +decide [closedCands, issueTripleClose, mkEv, dtBranch, utcDT]
    simp [closed_at, closed_at_from_events, hc, pyMax, utcDT, PyDateTime.inst, h13]
  · intro t1 t2 t3
    simp +decide [get_closed_date, issueTripleClose, mkEv, List.find?]

/-- C1 witness: the amended theorem evaluated on the concrete scenario
closed@1, reopened@2, closed@3. -/
theorem c1_close_resolution_amended_witness :
    closed_at (issueTripleClose 1 2 3) = some (utcDT 3) :=
  c1_close_resolution_amended.2.2.2.1 1 2 3 (by norm_num) (by norm_num)

/-! ### C2: non-negativity of duration records -/

/-- C2 counterexample. The claim says every duration record of a run has
duration_value ≥ 0; but `_calculate_completion_time` of completion_analysis.py
performs no negativity check, so an issue whose closed event precedes its
created date contributes the record (7, -1) — a negative duration — to the
analysis dataset. -/
theorem c2_counterexample :
    completionRecordsCA some [issueNeg] = [(7, -1)] ∧ (-1 : ℚ) < 0 := by
  constructor
  · simp +decide [completionRecordsCA, calculate_completion_time, issueNeg,
      get_closed_date, mkEv, utcDT, PyDateTime.inst]
  · norm_num

/-- C2 (amended): `_completion_days` of completion_time_analysis.py /
feature_2.py discards negative durations (returns null), so every duration
record of those analyses is non-negative; `_calculate_completion_time` of
completion_analysis.py has no such guard and its records can be negative. -/
theorem c2_duration_nonneg_amended :
    (∀ (i : Issue) (d : ℚ), completion_days i = some d → 0 ≤ d)
    ∧ (∀ (issues : List Issue), ∀ r ∈ completionRecordsCTA issues, 0 ≤ r.2) := by
  have h1 : ∀ (i : Issue) (d : ℚ), completion_days i = some d → 0 ≤ d := by
    intro i d h
    unfold completion_days at h
    split at h
    · split at h
      · dsimp only at h
        split at h
        · next hge =>
          injection h with h'
          exact h' ▸ hge
        · cases h
      · cases h
    · cases h
  refine ⟨h1, ?_⟩
  intro issues r hr
  unfold completionRecordsCTA at hr
  rw [List.mem_filterMap] at hr
  obtain ⟨i, _, hmap⟩ := hr
  cases hcd : completion_days i with
  | none => rw [hcd] at hmap; cases hmap
  | some d =>
    rw [hcd] at hmap
    simp only [Option.map_some', Option.some.injEq] at hmap
    rw [← hmap]
    exact h1 i d hcd

/-- C2 witness: the amended theorem evaluated on a concrete issue closed two
days after creation. -/
theorem c2_duration_nonneg_amended_witness : (0 : ℚ) ≤ 2 :=
  c2_duration_nonneg_amended.1 issueGood 2 (by
    simp +decide [completion_days, issueGood, created_at, closed_at,
      closed_at_from_events, closedCands, pyMax, updated_at, dtBranch, utcDT,
      PyDateTime.inst, mkEv]
    norm_num)

/-! ### C3: first-assignment resolution -/

/-- An open issue created at `c` with events commented@t1, assigned@t2,
assigned@t3. -/
def issueTriage (c : PyDateTime) (t1 t2 t3 : Int) : Issue :=
  { number := 2, creator := "gil", title := "", url := none,
    state := State.open_, created_date := some c, updated_date := none,
    labels := [], assignees := [],
    events := [mkEv "commented" t1, mkEv "assigned" t2, mkEv "assigned" t3] }

/-- C3 counterexample. The claim's qualifying predicate admits any event whose
label or comment contains "assign", with no requirement on `event_type`; the
code skips events with a falsy `event_type` before running that heuristic. On
an issue whose earliest event has `event_type = None` and comment
"please assign me" (at t=100), followed by a typed assigned event (at t=200),
the claimed resolution picks the comment event, but the code returns the later
typed event. -/
theorem c3_counterexample :
    first_assignment_event issueHeur = some evAssigned200
    ∧ first_assignment_event_spec issueHeur = some evNullType
    ∧ evAssigned200 ≠ evNullType := ⟨by decide, by decide, by decide⟩

/-- C3 (amended): first-assignment resolution sorts the events ascending by
(event_date, with the created date substituted for missing dates) and returns
the first event that has a non-empty `event_type` AND (its stripped
lower-cased type is an assignment kind, or its label or comment contains
"assign"); it returns null when the issue has no created date or no such
event, and on commented@t1, assigned@t2, assigned@t3 with t1 < t2 < t3 it
returns the assigned event at t2. -/
theorem c3_first_assignment_amended :
    (∀ i : Issue, i.created_date = none → first_assignment_event i = none)
    ∧ (∀ (i : Issue) (e : Event), first_assignment_event i = some e →
        qualifiesCode e = true ∧ e ∈ i.events)
    ∧ (∀ i : Issue, (∀ e ∈ i.events, qualifiesCode e = false) →
        first_assignment_event i = none)
    ∧ (∀ (c : PyDateTime) (t1 t2 t3 : Int), t1 < t2 → t2 < t3 →
        first_assignment_event (issueTriage c t1 t2 t3)
          = some (mkEv "assigned" t2)) := by
  refine ⟨?_, ?_, ?_, ?_⟩
  · intro i h
    unfold first_assignment_event
    rw [h]
  · intro i e h
    unfold first_assignment_event at h
    split at h
    · cases h
    · refine ⟨List.find?_some h, ?_⟩
      have hmem := List.mem_of_find?_eq_some h
      rwa [sortedEventsBy, List.mem_insertionSort] at hmem
  · intro i hall
    unfold first_assignment_event
    split
    · rfl
    · rw [List.find?_eq_none]
      intro e he
      have : e ∈ i.events := by
        rwa [sortedEventsBy, List.mem_insertionSort] at he
      simp [hall e this]
  · intro c t1 t2 t3 h12 h23
    have hsorted : List.Sorted
        (fun a b : Event => eventSortKey c a ≤ eventSortKey c b)
        [mkEv "commented" t1, mkEv "assigned" t2, mkEv "assigned" t3] := by
      simp [List.sorted_cons, eventSortKey, mkEv, utcDT, PyDateTime.inst]
      omega
    have heq : sortedEventsBy c
        [mkEv "commented" t1, mkEv "assigned" t2, mkEv "assigned" t3]
        = [mkEv "commented" t1, mkEv "assigned" t2, mkEv "assigned" t3] :=
      List.Sorted.insertionSort_eq hsorted
    have hq1 : qualifiesCode (mkEv "commented" t1) = false := rfl
    have hq2 : qualifiesCode (mkEv "assigned" t2) = true := rfl
    unfold first_assignment_event issueTriage
    dsimp only
    rw [heq]
    simp [List.find?, hq1, hq2]

/-- C3 witness: the amended theorem evaluated at created = instant 0 and
events at instants 1, 2, 3. -/
theorem c3_first_assignment_amended_witness :
    first_assignment_event (issueTriage (utcDT 0) 1 2 3)
      = some (mkEv "assigned" 2) :=
  c3_first_assignment_amended.2.2.2 (utcDT 0) 1 2 3 (by norm_num) (by norm_num)

/-! ### C4: fixed-now determinism and per-record clock sampling -/

/-- C4 counterexample. The claim says the "now" instant is captured once per
analysis run and not re-sampled per record; but `datetime.now` is called
inside the per-issue age computation, so on two open issues (both created at
instant 0) with a clock that advances one day between samples, the two
records carry DIFFERENT ages (0 and 1 days), whereas a once-captured now
would give both records age 0. -/
theorem c4_counterexample :
    agingRecords some (fun k => 86400 * k) [issueOpenN 1, issueOpenN 2] 0
      = [(1, 0), (2, 1)]
    ∧ agingRecords some (fun _ => 86400 * 0) [issueOpenN 1, issueOpenN 2] 0
      = [(1, 0), (2, 0)]
    ∧ [((1 : Int), (0 : ℚ)), (2, 1)] ≠ [(1, 0), (2, 0)] := by
  refine ⟨?_, ?_, by decide⟩
  · simp +decide [agingRecords, issueOpenN, utcDT, PyDateTime.inst]
  · simp +decide [agingRecords, issueOpenN, utcDT, PyDateTime.inst]

/-- C4 (amended): the pipeline is deterministic given the clock — two runs
over the same snapshot in which every clock sample returns the same fixed
instant produce identical aging records and identical summary statistics.
However, the now instant is re-sampled inside each record's age computation
(the k-th surviving record uses the k-th sample), so the fixed-now guarantee
requires every sample to agree, not a single per-run capture. -/
theorem c4_fixed_now_amended (norm : PyDateTime → Option PyDateTime)
    (clock clock' : Nat → Int) (t : Int)
    (h : ∀ k, clock k = t) (h' : ∀ k, clock' k = t) :
    ∀ (issues : List Issue) (k k' : Nat),
      agingRecords norm clock issues k = agingRecords norm clock' issues k'
      ∧ summaryOf ((agingRecords norm clock issues k).map Prod.snd)
          = summaryOf ((agingRecords norm clock' issues k').map Prod.snd) := by
  have main : ∀ (issues : List Issue) (k k' : Nat),
      agingRecords norm clock issues k = agingRecords norm clock' issues k' := by
    intro issues
    induction issues with
    | nil => intro k k'; rfl
    | cons i rest ih =>
      intro k k'
      by_cases hst : i.state = State.open_
      · cases hcd : i.created_date with
        | none => simp only [agingRecords, if_pos hst, hcd]; exact ih k k'
        | some cd =>
          cases hn : norm cd with
          | none => simp only [agingRecords, if_pos hst, hcd, hn]; exact ih k k'
          | some cdd =>
            simp only [agingRecords, if_pos hst, hcd, hn, h k, h' k']
            rw [ih (k + 1) (k' + 1)]
      · simp only [agingRecords, if_neg hst]; exact ih k k'
  intro issues k k'
  exact ⟨main issues k k', by rw [main issues k k']⟩

/-- C4 witness: two syntactically different but pointwise-equal clocks over a
two-issue snapshot. -/
theorem c4_fixed_now_amended_witness :
    agingRecords some (fun _ => (5 : Int)) [issueOpenN 1, issueOpenN 2] 0
      = agingRecords some (fun k => (5 : Int) + 0 * k) [issueOpenN 1, issueOpenN 2] 0 :=
  (c4_fixed_now_amended some _ _ 5 (fun _ => rfl) (fun k => by ring)
    [issueOpenN 1, issueOpenN 2] 0 0).1

/-! ### C5: timestamp normalizer -/

/-- C5 counterexample. The claim says the normalizer returns either a
timezone-aware UTC instant or null, converting timezone-carrying values to
UTC; but `_to_utc_dt` returns an aware native datetime UNCHANGED
(`x if x.tzinfo else ...`): on a datetime with offset +05:00 (18000 s) the
result still carries the +05:00 offset, not UTC. -/
theorem c5_counterexample :
    to_utc_dt (fun _ => none) (Raw.dt ⟨3600, some 18000⟩)
      = some ⟨3600, some 18000⟩
    ∧ (⟨3600, some 18000⟩ : PyDateTime).tz ≠ some 0 := ⟨rfl, by decide⟩

/-- C5 (amended): both normalizers are total, return null exactly on null or
unparseable input, and never yield a naive result. Parsed strings follow the
claimed UTC policy (naive readings are taken as UTC preserving the wall clock;
aware ones are converted preserving the instant), as does
`_to_utc_timestamp` for every parsed value; but `_to_utc_dt` attaches UTC only
to NAIVE native datetimes and returns aware native datetimes unchanged,
without converting them to UTC. -/
theorem c5_normalizer_amended (parse : String → Option PyDateTime) :
    (to_utc_dt parse Raw.null = none)
    ∧ (∀ d : PyDateTime, d.tz = none →
        to_utc_dt parse (Raw.dt d) = some ⟨d.wall, some 0⟩)
    ∧ (∀ d : PyDateTime, d.tz.isSome → to_utc_dt parse (Raw.dt d) = some d)
    ∧ (∀ s, parse s = none → to_utc_dt parse (Raw.str s) = none)
    ∧ (∀ s d, parse s = some d → to_utc_dt parse (Raw.str s) = some (forceUtc d))
    ∧ (∀ d : PyDateTime, (forceUtc d).tz = some 0 ∧ (forceUtc d).inst = d.inst
        ∧ (d.tz = none → (forceUtc d).wall = d.wall))
    ∧ (∀ s, s = "" ∨ parse s = none → to_utc_timestamp parse s = none)
    ∧ (∀ s d, s ≠ "" → parse s = some d →
        to_utc_timestamp parse s = some (forceUtc d)) := by
  refine ⟨rfl, ?_, ?_, ?_, ?_, ?_, ?_, ?_⟩
  · intro d hd
    simp [to_utc_dt, dtBranch, hd]
  · intro d hd
    simp [to_utc_dt, dtBranch, hd]
  · intro s hs
    simp [to_utc_dt, hs]
  · intro s d hs
    simp [to_utc_dt, hs]
  · intro d
    refine ⟨?_, ?_, ?_⟩
    · unfold forceUtc; split <;> rfl
    · unfold forceUtc PyDateTime.inst
      split
      · simp
      · next hd =>
        rcases d with ⟨w, tz⟩
        cases tz with
        | none => simp
        | some z => simp at hd
    · intro hd
      simp [forceUtc, hd]
  · intro s hs
    rcases hs with hs | hs
    · simp [to_utc_timestamp, hs]
    · unfold to_utc_timestamp
      split
      · rfl
      · rw [hs]
  · intro s d hs hp
    simp only [to_utc_timestamp, if_neg hs, hp, forceUtc]
    split <;> rfl

/-- C5 witness: the amended theorem evaluated on a naive native datetime and
on an aware parsed string. -/
theorem c5_normalizer_amended_witness :
    to_utc_dt (fun _ => none) (Raw.dt ⟨5, none⟩) = some ⟨5, some 0⟩
    ∧ to_utc_timestamp (fun _ => some ⟨60, some 60⟩) "x" = some ⟨0, some 0⟩ := by
  refine ⟨(c5_normalizer_amended (fun _ => none)).2.1 ⟨5, none⟩ rfl, ?_⟩
  have h := (c5_normalizer_amended (fun _ => some ⟨60, some 60⟩)).2.2.2.2.2.2.2
    "x" ⟨60, some 60⟩ (by decide) rfl
  rw [h]
  rfl

/-! ### C6: bucket partition -/

/-- C6 (confirmed): every duration value lies in exactly one of the four
buckets ≤7, (7,30], (30,90], >90 (boundary values belong to the lower
bucket), and the four bucket counts sum to the total number of values. -/
theorem c6_buckets_partition :
    (∀ d : ℚ, (inFast d).toNat + (inNormal d).toNat + (inSlow d).toNat
        + (inStale d).toNat = 1)
    ∧ ∀ values : List ℚ,
        (bucketCounts values).1 + (bucketCounts values).2.1
          + (bucketCounts values).2.2.1 + (bucketCounts values).2.2.2
          = values.length := by
  have h1 : ∀ d : ℚ, (inFast d).toNat + (inNormal d).toNat + (inSlow d).toNat
      + (inStale d).toNat = 1 := by
    intro d
    by_cases h7 : d ≤ 7
    · have h7' : ¬ (7 : ℚ) < d := not_lt.mpr h7
      have h30 : ¬ (30 : ℚ) < d := by intro hx; linarith
      have h90 : ¬ (90 : ℚ) < d := by intro hx; linarith
      simp [inFast, inNormal, inSlow, inStale, h7, h7', h30, h90]
    · by_cases h30 : d ≤ 30
      · have h7' : (7 : ℚ) < d := lt_of_not_le h7
        have h30' : ¬ (30 : ℚ) < d := not_lt.mpr h30
        have h90 : ¬ (90 : ℚ) < d := by intro hx; linarith
        simp [inFast, inNormal, inSlow, inStale, h7, h7', h30, h30', h90]
      · by_cases h90 : d ≤ 90
        · have h30' : (30 : ℚ) < d := lt_of_not_le h30
          have h90' : ¬ (90 : ℚ) < d := not_lt.mpr h90
          simp [inFast, inNormal, inSlow, inStale, h7, h30, h30', h90, h90']
        · have h90' : (90 : ℚ) < d := lt_of_not_le h90
          have h30' : ¬ d ≤ 30 := h30
          simp [inFast, inNormal, inSlow, inStale, h7, h30', h90, h90']
  refine ⟨h1, ?_⟩
  intro values
  induction values with
  | nil => rfl
  | cons v vs ih =>
    simp only [bucketCounts, List.countP_cons, List.length_cons] at ih ⊢
    have hv := h1 v
    cases hf : inFast v <;> cases hn : inNormal v <;> cases hs : inSlow v
      <;> cases hst : inStale v <;> simp [hf, hn, hs, hst] at hv ⊢ <;> omega

/-! ### C7: filtering -/

/-- Membership characterization of the user pass. -/
theorem mem_userPass {userF : Option String} {l : List Issue} {i : Issue} :
    i ∈ userPass userF l ↔ i ∈ l ∧ userPred userF i = true := by
  cases userF with
  | none => simp [userPass, userPred]
  | some u =>
    by_cases hu : u = ""
    · subst hu; simp [userPass, userPred]
    · simp [userPass, userPred, hu, List.mem_filter, beq_eq_false_iff_ne.mpr hu]

/-- Membership characterization of the label pass. -/
theorem mem_labelPass {labelF : Option String} {l : List Issue} {i : Issue} :
    i ∈ labelPass labelF l ↔ i ∈ l ∧ labelPred labelF i = true := by
  cases labelF with
  | none => simp [labelPass, labelPred]
  | some lb =>
    by_cases hl : lb = ""
    · subst hl; simp [labelPass, labelPred]
    · simp [labelPass, labelPred, hl, List.mem_filter, beq_eq_false_iff_ne.mpr hl]

/-- Membership characterization of the since pass. -/
theorem mem_sincePass {parse : String → Option PyDateTime}
    {sinceF : Option String} {l : List Issue} {i : Issue} :
    i ∈ sincePass parse sinceF l ↔ i ∈ l ∧ sincePred parse sinceF i = true := by
  cases sinceF with
  | none => simp [sincePass, sincePred]
  | some s =>
    by_cases hs : s = ""
    · subst hs; simp [sincePass, sincePred]
    · cases hp : pd_to_datetime_utc parse s with
      | none => simp [sincePass, sincePred, hs, hp]
      | some start => simp [sincePass, sincePred, hs, hp, List.mem_filter]

/-- Each pass returns a sublist of its input. -/
theorem sublist_passes (parse : String → Option PyDateTime)
    (userF labelF sinceF : Option String) (l : List Issue) :
    (userPass userF l).Sublist l ∧ (labelPass labelF l).Sublist l
    ∧ (sincePass parse sinceF l).Sublist l := by
  refine ⟨?_, ?_, ?_⟩
  · cases userF with
    | none => exact List.Sublist.refl l
    | some u =>
      by_cases hu : u = "" <;> simp [userPass, hu]
  · cases labelF with
    | none => exact List.Sublist.refl l
    | some lb =>
      by_cases hl : lb = "" <;> simp [labelPass, hl]
  · cases sinceF with
    | none => exact List.Sublist.refl l
    | some s =>
      by_cases hs : s = ""
      · simp [sincePass, hs]
      · cases hp : pd_to_datetime_utc parse s with
        | none => simp [sincePass, hs, hp]
        | some start => simp [sincePass, hs, hp]

/-- C7 counterexample. The claim says the label filter selects by membership
in the issue's labels; but the code matches against `_labels(i)`, which
substitutes the sentinel `["unlabeled"]` for an empty label list: filtering a
label-less issue by label "unlabeled" RETAINS the issue even though
"unlabeled" is not one of its labels. -/
theorem c7_counterexample :
    filter_issues (fun _ => none) none (some "unlabeled") none [issueNoLabels]
      = [issueNoLabels]
    ∧ "unlabeled" ∉ issueNoLabels.labels := ⟨by decide, by decide⟩

/-- C7 (amended): filtering returns exactly the issues satisfying all active
predicates conjoined — creator by exact equality, label by membership in the
issue's labels WITH an empty label list replaced by the sentinel
["unlabeled"], since by resolvable created instant ≥ the parsed bound (issues
with unresolvable created instants are excluded while that pass is active);
the result is a sublist of the input (the source collection is not mutated),
and an unparseable since value leaves the since filter not applied. -/
theorem c7_filter_amended (parse : String → Option PyDateTime)
    (userF labelF sinceF : Option String) (issues : List Issue) :
    (∀ i : Issue, i ∈ filter_issues parse userF labelF sinceF issues ↔
        i ∈ issues ∧ userPred userF i = true ∧ labelPred labelF i = true
          ∧ sincePred parse sinceF i = true)
    ∧ (filter_issues parse userF labelF sinceF issues).Sublist issues
    ∧ (∀ s : String, pd_to_datetime_utc parse s = none →
        filter_issues parse userF labelF (some s) issues
          = filter_issues parse userF labelF none issues) := by
  refine ⟨?_, ?_, ?_⟩
  · intro i
    unfold filter_issues
    rw [mem_sincePass, mem_labelPass, mem_userPass]
    tauto
  · unfold filter_issues
    have h1 := (sublist_passes parse userF labelF sinceF issues).1
    have h2 := (sublist_passes parse userF labelF sinceF (userPass userF issues)).2.1
    have h3 := (sublist_passes parse userF labelF sinceF
      (labelPass labelF (userPass userF issues))).2.2
    exact (h3.trans h2).trans h1
  · intro s hp
    unfold filter_issues sincePass
    by_cases hs : s = ""
    · simp [hs]
    · simp [hs, hp]

/-- C7 witness: an unparseable since bound leaves the filter unapplied. -/
theorem c7_filter_amended_witness :
    filter_issues (fun _ => none) none none (some "20xx") [issueNoLabels]
      = filter_issues (fun _ => none) none none none [issueNoLabels] :=
  (c7_filter_amended (fun _ => none) none none (some "20xx") [issueNoLabels]).2.2
    "20xx" rfl

/-! ### C8: minimum-sample gating and median ordering -/

/-- C8 (confirmed): every group surviving `_analyze_by_labels` has count ≥ 3
and the output is ordered ascending by its median statistic; every group
surviving `_analyze_stalest_labels` has count ≥ 2 and the output is ordered
descending by its median statistic (groups below the minimum sample size are
omitted by the gating filter). -/
theorem c8_group_gating_and_order (rows : List (String × ℚ)) :
    ((analyze_by_labels rows).all (fun st => decide (3 ≤ st.count)) = true)
    ∧ List.Sorted (fun a b : LabelStat => a.median ≤ b.median)
        (analyze_by_labels rows)
    ∧ ((analyze_stalest_labels rows).all (fun st => decide (2 ≤ st.count)) = true)
    ∧ List.Sorted (fun a b : LabelStat => b.median ≤ a.median)
        (analyze_stalest_labels rows) := by
  refine ⟨?_, ?_, ?_, ?_⟩
  · rw [List.all_eq_true]
    intro st hst
    unfold analyze_by_labels at hst
    have h1 := List.mem_of_mem_take hst
    rw [List.mem_insertionSort] at h1
    exact (List.mem_filter.mp h1).2
  · unfold analyze_by_labels
    letI : IsTotal LabelStat (fun a b => a.median ≤ b.median) :=
      ⟨fun a b => le_total a.median b.median⟩
    letI : IsTrans LabelStat (fun a b => a.median ≤ b.median) :=
      ⟨fun a b c hab hbc => le_trans hab hbc⟩
    exact List.Pairwise.sublist (List.take_sublist _ _)
      (List.sorted_insertionSort _ _)
  · rw [List.all_eq_true]
    intro st hst
    unfold analyze_stalest_labels at hst
    have h1 := List.mem_of_mem_take hst
    rw [List.mem_insertionSort] at h1
    exact (List.mem_filter.mp h1).2
  · unfold analyze_stalest_labels
    letI : IsTotal LabelStat (fun a b : LabelStat => b.median ≤ a.median) :=
      ⟨fun a b => le_total b.median a.median⟩
    letI : IsTrans LabelStat (fun a b : LabelStat => b.median ≤ a.median) :=
      ⟨fun a b c hab hbc => le_trans hbc hab⟩
    exact List.Pairwise.sublist (List.take_sublist _ _)
      (List.sorted_insertionSort _ _)

/-! ### C9: orchestrator behaviour on empty / no-data input -/

/-- C9 (confirmed): the orchestrator is a total function that never escapes
with an error — on an empty collection it returns the empty sentinel with the
no-data notices; whenever no closed issue yields a usable completion duration
it falls back to the open-issue aging analysis; and when the aging fallback
also yields no records the result is the empty sentinel together with the
human-readable no-data message. -/
theorem c9_run_no_data (norm : PyDateTime → Option PyDateTime)
    (clock : Nat → Int) :
    runCA norm clock []
      = ⟨RunOutcome.noData,
         ["No closed issues found. Analyzing open issue aging instead...",
          "No valid aging data found for open issues."]⟩
    ∧ (∀ issues : List Issue,
        completionRecordsCA norm
            (issues.filter (fun i => i.state == State.closed)) = [] →
          (runCA norm clock issues).outcome
            = (analyze_open_issues norm clock
                (issues.filter (fun i => i.state == State.open_))).outcome)
    ∧ (∀ issues : List Issue,
        completionRecordsCA norm
            (issues.filter (fun i => i.state == State.closed)) = [] →
        agingRecords norm clock
            (issues.filter (fun i => i.state == State.open_)) 0 = [] →
          (runCA norm clock issues).outcome = RunOutcome.noData
          ∧ "No valid aging data found for open issues."
              ∈ (runCA norm clock issues).messages) := by
  refine ⟨rfl, ?_, ?_⟩
  · intro issues h
    unfold runCA
    by_cases hc : (issues.filter (fun i => i.state == State.closed)).isEmpty
    · simp only [hc, if_true]
    · simp only [hc, if_false, h]
      rfl
  · intro issues h hrec
    unfold runCA analyze_open_issues
    by_cases hc : (issues.filter (fun i => i.state == State.closed)).isEmpty
    · simp [hc, hrec, summaryOf]
    · simp [hc, h, hrec, summaryOf]

/-- C9 witness: a snapshot containing a single open issue without a created
date yields the empty sentinel and the no-data message. -/
theorem c9_run_no_data_witness :
    (runCA some (fun _ => 0) [issueOpenNoCreated]).outcome = RunOutcome.noData
    ∧ "No valid aging data found for open issues."
        ∈ (runCA some (fun _ => 0) [issueOpenNoCreated]).messages :=
  (c9_run_no_data some (fun _ => 0)).2.2 [issueOpenNoCreated] rfl rfl

/-! ### C10: null-dated first assignment yields no triage record -/

/-- C10 (confirmed): when the first qualifying assignment event of an issue
carries no `event_date`, the issue contributes no row to the triage
DataFrame — the scan commits to the first qualifying event and then requires
that event's own timestamp (both the days and the hours variant). -/
theorem c10_null_date_first_assignment (i : Issue) (rest : List Issue)
    (e : Event) (h : first_assignment_event i = some e)
    (hd : e.event_date = none) :
    triageRows (i :: rest) = triageRows rest
    ∧ triageRowsHours (i :: rest) = triageRowsHours rest := by
  have hrow : triageRow i = none := by
    unfold triageRow
    cases hcd : i.created_date with
    | none => rfl
    | some created => simp only [h, hd]
  have hrowH : triageRowHours i = none := by
    unfold triageRowHours
    cases hcd : i.created_date with
    | none => rfl
    | some created => simp only [h, hd]
  constructor
  · unfold triageRows
    rw [List.filterMap_cons, hrow]
  · unfold triageRowsHours
    rw [List.filterMap_cons, hrowH]

/-- C10 witness: an issue whose first assignment event has no date (while a
later assigned event at instant 500 does) produces no triage row. -/
theorem c10_null_date_first_assignment_witness :
    triageRows [issueNullFirstAssign] = triageRows []
    ∧ triageRowsHours [issueNullFirstAssign] = triageRowsHours [] :=
  c10_null_date_first_assignment issueNullFirstAssign [] evAssignNoDate
    (by decide) rfl
